import Mathlib

/-!
Verification of the response-parsing and query-construction core of the
Perplexity client/proxy repository.

The development shallowly embeds the Python source:
* a JSON value model `JVal` with an executable parser `json_loads`
  mirroring Python's `json.loads` as the repository uses it (object
  fields follow dict semantics: a duplicate key overwrites the earlier
  value in place; numbers are kept as their lexemes, which is enough for
  every property claimed about this code; lone surrogate escapes and
  non-ASCII whitespace classes are simplified),
* the model parser `parse_model` and the final-answer extraction loop of
  `s2.call_perplexity`,
* the event decoder of `perplexity_fixed.Client.search` /
  `search_stream`,
* the payload validation of `perplexity_fixed.Client._create_payload`,
* the profile augmentation of `perplexity_profiles` and the usage
  accounting of the OpenAI-compatible endpoints,
* the `_parse_response` / `_parse_stream_chunk` shaping of
  `perplexity_api.PerplexityAPI`.
-/

set_option maxRecDepth 10000

/-- JSON values as produced by Python's `json.loads`.  Numbers keep their
source lexeme (no claim below inspects numeric magnitude beyond
truthiness).  Objects are insertion-ordered association lists with unique
keys, exactly the observable shape of a Python dict. -/
inductive JVal where
  | null : JVal
  | bool (b : Bool) : JVal
  | num (lexeme : String) : JVal
  | str (s : String) : JVal
  | arr (elems : List JVal) : JVal
  | obj (fields : List (String × JVal)) : JVal

/-- Comparison of a decoded value against a string literal
(`chunk.get("type") == "chunk"` in Python). -/
def JVal.eqStr : JVal → String → Bool
  | .str s, t => s = t
  | _, _ => false

/-- Field lookup in a decoded object (`d.get(k)` on a Python dict). -/
def lookupField : List (String × JVal) → String → Option JVal
  | [], _ => none
  | (k, v) :: rest, key => if k = key then some v else lookupField rest key

/-- `d[k] = v` on a Python dict: replace in place if the key exists,
otherwise append. -/
def insertField : List (String × JVal) → String → JVal → List (String × JVal)
  | [], k, v => [(k, v)]
  | (k0, v0) :: rest, k, v =>
    if k0 = k then (k0, v) :: rest else (k0, v0) :: insertField rest k v

/-- `chunk.get(key)` when `chunk` is a decoded object; `none` otherwise
callers model the resulting `AttributeError` explicitly. -/
def JVal.getField : JVal → String → Option JVal
  | .obj fields, key => lookupField fields key
  | _, _ => none

/-- `chunk.get(key, default)`. -/
def JVal.getFieldD (j : JVal) (key : String) (dflt : JVal) : JVal :=
  (j.getField key).getD dflt

def JVal.isObj : JVal → Bool
  | .obj _ => true
  | _ => false

/-- JSON whitespace accepted by Python's decoder between tokens. -/
def isJsonWs (c : Char) : Bool :=
  c = ' ' || c = '\t' || c = '\n' || c = '\r'

def skipJsonWs (cs : List Char) : List Char := cs.dropWhile isJsonWs

def hexVal (c : Char) : Option Nat :=
  if '0' ≤ c ∧ c ≤ '9' then some (c.toNat - '0'.toNat)
  else if 'a' ≤ c ∧ c ≤ 'f' then some (c.toNat - 'a'.toNat + 10)
  else if 'A' ≤ c ∧ c ≤ 'F' then some (c.toNat - 'A'.toNat + 10)
  else none

/-- Short escapes inside JSON strings. -/
def escChar : Char → Option Char
  | '"' => some '"'
  | '\\' => some '\\'
  | '/' => some '/'
  | 'b' => some (Char.ofNat 8)
  | 'f' => some (Char.ofNat 12)
  | 'n' => some '\n'
  | 'r' => some '\r'
  | 't' => some '\t'
  | _ => none

/-- Body of a JSON string literal, after the opening quote; returns the
decoded characters and the input after the closing quote.  Unescaped
control characters are rejected (Python strict mode). -/
def parseJString : List Char → Option (List Char × List Char)
  | [] => none
  | '"' :: rest => some ([], rest)
  | '\\' :: 'u' :: h1 :: h2 :: h3 :: h4 :: rest =>
    match hexVal h1, hexVal h2, hexVal h3, hexVal h4 with
    | some a, some b, some c, some d =>
      (parseJString rest).map fun p =>
        (Char.ofNat (((a * 16 + b) * 16 + c) * 16 + d) :: p.1, p.2)
    | _, _, _, _ => none
  | '\\' :: e :: rest =>
    match escChar e with
    | some c => (parseJString rest).map fun p => (c :: p.1, p.2)
    | none => none
  | c :: rest =>
    if c.toNat < 32 then none
    else (parseJString rest).map fun p => (c :: p.1, p.2)

def isDigitCh (c : Char) : Bool := '0' ≤ c ∧ c ≤ '9'

/-- JSON number lexeme: `-? int frac? exp?` with the usual restrictions. -/
def parseNum (cs : List Char) : Option (List Char × List Char) :=
  let (sign, afterSign) :=
    match cs with
    | '-' :: rest => (['-'], rest)
    | _ => (([] : List Char), cs)
  match afterSign with
  | [] => none
  | c :: _ =>
    if ¬ isDigitCh c then none
    else
      let (intPart, afterInt) := afterSign.span isDigitCh
      if intPart.length > 1 ∧ intPart.headI = '0' then none
      else
        let fracRes : Option (List Char × List Char) :=
          match afterInt with
          | '.' :: rest =>
            let (ds, r) := rest.span isDigitCh
            if ds = [] then none else some ('.' :: ds, r)
          | _ => some ([], afterInt)
        match fracRes with
        | none => none
        | some (fracPart, afterFrac) =>
          let (expPart, afterExp) :=
            match afterFrac with
            | e :: rest =>
              if e = 'e' ∨ e = 'E' then
                match rest with
                | s :: rest2 =>
                  if s = '+' ∨ s = '-' then
                    let (ds, r) := rest2.span isDigitCh
                    if ds = [] then (([] : List Char), afterFrac) else (e :: s :: ds, r)
                  else
                    let (ds, r) := rest.span isDigitCh
                    if ds = [] then (([] : List Char), afterFrac) else (e :: ds, r)
                | [] => (([] : List Char), afterFrac)
              else (([] : List Char), afterFrac)
            | [] => (([] : List Char), afterFrac)
          some (sign ++ intPart ++ fracPart ++ expPart, afterExp)

mutual

/-- One JSON value, fuel-bounded recursive descent (fuel only limits
nesting/element recursion, and the callers below always supply enough). -/
def parseVal : Nat → List Char → Option (JVal × List Char)
  | 0, _ => none
  | fuel + 1, cs =>
    match skipJsonWs cs with
    | [] => none
    | 'n' :: 'u' :: 'l' :: 'l' :: rest => some (.null, rest)
    | 't' :: 'r' :: 'u' :: 'e' :: rest => some (.bool true, rest)
    | 'f' :: 'a' :: 'l' :: 's' :: 'e' :: rest => some (.bool false, rest)
    | 'N' :: 'a' :: 'N' :: rest => some (.num "NaN", rest)
    | 'I' :: 'n' :: 'f' :: 'i' :: 'n' :: 'i' :: 't' :: 'y' :: rest =>
      some (.num "Infinity", rest)
    | '-' :: 'I' :: 'n' :: 'f' :: 'i' :: 'n' :: 'i' :: 't' :: 'y' :: rest =>
      some (.num "-Infinity", rest)
    | '"' :: rest =>
      (parseJString rest).map fun p => (.str (String.mk p.1), p.2)
    | '[' :: rest =>
      (match skipJsonWs rest with
       | ']' :: rest2 => some (.arr [], rest2)
       | other => parseArrElems fuel [] other)
    | '\x7b' :: rest =>
      (match skipJsonWs rest with
       | '\x7d' :: rest2 => some (.obj [], rest2)
       | other => parseObjFields fuel [] other)
    | other =>
      (parseNum other).map fun p => (.num (String.mk p.1), p.2)

/-- Array elements after the first has been reached (accumulator reversed
at the close bracket). -/
def parseArrElems : Nat → List JVal → List Char → Option (JVal × List Char)
  | 0, _, _ => none
  | fuel + 1, acc, cs =>
    match parseVal fuel cs with
    | none => none
    | some (v, rest) =>
      match skipJsonWs rest with
      | ',' :: rest2 => parseArrElems fuel (v :: acc) rest2
      | ']' :: rest2 => some (.arr (v :: acc).reverse, rest2)
      | _ => none

/-- Object members; duplicate keys overwrite in place, as a Python dict
does while `json.loads` builds it. -/
def parseObjFields : Nat → List (String × JVal) → List Char → Option (JVal × List Char)
  | 0, _, _ => none
  | fuel + 1, acc, cs =>
    match skipJsonWs cs with
    | '"' :: rest =>
      match parseJString rest with
      | none => none
      | some (kChars, rest2) =>
        match skipJsonWs rest2 with
        | ':' :: rest3 =>
          match parseVal fuel rest3 with
          | none => none
          | some (v, rest4) =>
            match skipJsonWs rest4 with
            | ',' :: rest5 =>
              parseObjFields fuel (insertField acc (String.mk kChars) v) rest5
            | '\x7d' :: rest5 =>
              some (.obj (insertField acc (String.mk kChars) v), rest5)
            | _ => none
        | _ => none
    | _ => none

end

/-- Python `json.loads`: parse one value and require only whitespace to
remain. -/
def json_loads (s : String) : Option JVal :=
  match parseVal (2 * s.data.length + 8) s.data with
  | some (v, rest) => if skipJsonWs rest = [] then some v else none
  | none => none

/-- Python truthiness of a decoded JSON value (`if answer:`). -/
def numIsZero (lex : String) : Bool :=
  let mantissa := (lex.data.filter fun c => c ≠ '-' ∧ c ≠ '+' ∧ c ≠ '.').takeWhile
    fun c => c ≠ 'e' ∧ c ≠ 'E'
  mantissa ≠ [] ∧ mantissa.all fun c => c = '0'

def jTruthy : JVal → Bool
  | .null => false
  | .bool b => b
  | .num lex => ¬ numIsZero lex
  | .str s => s ≠ ""
  | .arr elems => ! elems.isEmpty
  | .obj fields => ! fields.isEmpty

/-- `s2.parse_model`: split the OpenAI-surface model name on the first
dash; `deep-*` and `lab-*` are hardwired, a dashless name defaults to
`pro` mode with the whole string as model preference. -/
def splitFirstDash : List Char → Option (List Char × List Char)
  | [] => none
  | c :: cs =>
    if c = '-' then some ([], cs)
    else
      match splitFirstDash cs with
      | none => none
      | some (pre, post) => some (c :: pre, post)

def parse_model (model : String) : String × Option String :=
  match splitFirstDash model.data with
  | none => ("pro", some model)
  | some (modeChars, restChars) =>
    if String.mk modeChars = "deep" then ("deep research", some "pplx_alpha")
    else if String.mk modeChars = "lab" then ("deep lab", some "pplx_beta")
    else (String.mk modeChars, some (String.mk restChars))

/-! ## The final-answer extraction loop of `s2.call_perplexity`

The loop (s2.py lines 170-256) keeps a mutable `answer` value across
events.  For each `data:` payload it (a) breaks on the `[DONE]` sentinel,
(b) if the literal FINAL marker occurs in the raw text, attempts the
anchored regex extraction and then the broader scrape, and (c) attempts a
structured JSON parse on every event.  `AttributeError`/`TypeError`
escaping the loop becomes the generic HTTP-500 path, modelled as
`ExtractErr.internalError`. -/

/-- Python `\s` for the ASCII range (also the character class stripped by
`str.strip`). -/
def isPyWs (c : Char) : Bool :=
  c = ' ' || c = '\t' || c = '\n' || c = '\r' || c = Char.ofNat 11 || c = Char.ofNat 12

def skipPyWs (cs : List Char) : List Char := cs.dropWhile isPyWs

/-- Python `str.strip()`. -/
def pyStrip (cs : List Char) : List Char :=
  ((cs.dropWhile isPyWs).reverse.dropWhile isPyWs).reverse

/-- Python `in` on strings: substring containment. -/
def containsSub (needle : List Char) : List Char → Bool
  | [] => needle.isPrefixOf []
  | c :: rest => needle.isPrefixOf (c :: rest) || containsSub needle rest

/-- `'"step_type": "FINAL"' in data_str` (s2.py line 177). -/
def hasFinalMarker (dataStr : String) : Bool :=
  containsSub "\"step_type\": \"FINAL\"".data dataStr.data

/-- Python `str.replace(pat, rep)` (all non-overlapping occurrences, left
to right); fuel is the input length, which always suffices because every
step consumes at least one character. -/
def replaceSubGo (pat rep : List Char) : Nat → List Char → List Char
  | 0, cs => cs
  | _, [] => []
  | fuel + 1, c :: rest =>
    if pat.isPrefixOf (c :: rest) then
      rep ++ replaceSubGo pat rep fuel ((c :: rest).drop pat.length)
    else c :: replaceSubGo pat rep fuel rest

def replaceSub (pat rep cs : List Char) : List Char :=
  if pat.isEmpty then cs else replaceSubGo pat rep cs.length cs

/-- The escape-substitution chain applied to a regex-recovered answer
(s2.py lines 191-206), in source order. -/
def unescapePairs : List (List Char × List Char) :=
  [ ("\\\"".data, ['"'])
  , ("\\\\".data, ['\\'])
  , ("\\n".data, ['\n'])
  , ("\\t".data, ['\t'])
  , ("\\r".data, ['\r'])
  , ("\\/".data, ['/'])
  , ("\\u2014".data, ['—'])
  , ("\\u2019".data, [Char.ofNat 39])
  , ("\\u201c".data, ['"'])
  , ("\\u201d".data, ['"'])
  , ("\\u2013".data, ['–'])
  , ("\\u2018".data, [Char.ofNat 39])
  , ("\\u2026".data, ['…'])
  , ("\\u00a0".data, [' '])
  ]

def cleanAnswer (raw : List Char) : String :=
  String.mk (pyStrip (unescapePairs.foldl (fun cs pr => replaceSub pr.1 pr.2 cs) raw))

/-- Strip a literal off the front, or fail. -/
def dropLit : List Char → List Char → Option (List Char)
  | [], cs => some cs
  | _, [] => none
  | l :: ls, c :: cs => if c = l then dropLit ls cs else none

/-- Greedy capture of `[^"]*(?:\\"[^"]*)*`: the longest prefix in which
every quote is immediately preceded by a backslash. -/
def captureP1 : List Char → List Char
  | [] => []
  | '\\' :: '"' :: rest => '\\' :: '"' :: captureP1 rest
  | '"' :: _ => []
  | c :: rest => c :: captureP1 rest

def answerKeyLit : List Char := "\"answer\":".data

/-- The anchored pattern
`"answer":\s*"{\s*\\"answer\\":\s*\\"([^"]*(?:\\"[^"]*)*)` (s2.py line
185) attempted at one position. -/
def matchP1At (cs : List Char) : Option (List Char) :=
  match dropLit answerKeyLit cs with
  | none => none
  | some r1 =>
    match dropLit "\"\x7b".data (skipPyWs r1) with
    | none => none
    | some r2 =>
      match dropLit "\\\"answer\\\":".data (skipPyWs r2) with
      | none => none
      | some r3 =>
        match dropLit "\\\"".data (skipPyWs r3) with
        | none => none
        | some r4 => some (captureP1 r4)

/-- `re.search` of the anchored pattern: leftmost position at which the
pattern matches wins. -/
def searchP1 : List Char → Option (List Char)
  | [] => none
  | c :: rest =>
    match matchP1At (c :: rest) with
    | some cap => some cap
    | none => searchP1 rest

/-- The broader pattern `"answer":\s*"[^"]*"([^"]+)` (s2.py line 213)
attempted at one position; the capture must be non-empty. -/
def matchP2At (cs : List Char) : Option (List Char) :=
  match dropLit answerKeyLit cs with
  | none => none
  | some r1 =>
    match skipPyWs r1 with
    | '"' :: r2 =>
      match (r2.span fun c => c ≠ '"').2 with
      | '"' :: r4 =>
        let cap := r4.takeWhile fun c => c ≠ '"'
        if cap.isEmpty then none else some cap
      | _ => none
    | _ => none

def searchP2 : List Char → Option (List Char)
  | [] => none
  | c :: rest =>
    match matchP2At (c :: rest) with
    | some cap => some cap
    | none => searchP2 rest

/-- `re.sub(r'[{}",\\]', ' ', ...)` (s2.py line 218). -/
def stripJsonStructural (cs : List Char) : List Char :=
  cs.map fun c =>
    if c = '\x7b' ∨ c = '\x7d' ∨ c = '"' ∨ c = ',' ∨ c = '\\' then ' ' else c

/-- `re.sub(r'\s+', ' ', ...)` (s2.py line 219). -/
def collapseWsGo : Bool → List Char → List Char
  | _, [] => []
  | prevWs, c :: rest =>
    if isPyWs c then
      if prevWs then collapseWsGo true rest
      else ' ' :: collapseWsGo true rest
    else c :: collapseWsGo false rest

def collapseWs (cs : List Char) : List Char := collapseWsGo false cs

/-- Outcome of one loop iteration: an early `break` with a truthy-checked
value, continuation with the (possibly updated) running `answer`, or an
uncaught exception aborting the request. -/
inductive StepOut where
  | found (v : JVal)
  | next (acc : JVal)
  | abort

inductive ExtractErr where
  | noAnswerFound
  | internalError
deriving DecidableEq

def optEqStrB (o : Option JVal) (t : String) : Bool :=
  match o with
  | some v => v.eqStr t
  | none => false

/-- What the structured fallback does with one event, independently of the
running answer: assign a nested value, keep the running answer, or raise.
(The Python block reads only `data_str` until it assigns `answer`.) -/
inductive StructOut where
  | assign (v : JVal)
  | keep
  | abortS

/-- The structured fallback (s2.py lines 227-245): JSON-decode the event;
a `type == "chunk"` event whose `data.step_type` is FINAL has its
`content.answer` string decoded a second time and the nested `answer`
assigned to the running answer.  `.get` on a non-dict and `json.loads`
of a non-string raise and abort the request. -/
def structuredOutcome (dataStr : String) : StructOut :=
  match json_loads dataStr with
  | none => .keep
  | some chunk =>
    match chunk with
    | .obj _ =>
      if optEqStrB (chunk.getField "type") "chunk" then
        match chunk.getFieldD "data" (.obj []) with
        | .obj dataFields =>
          if optEqStrB (lookupField dataFields "step_type") "FINAL" then
            match (lookupField dataFields "content").getD (.obj []) with
            | .obj contentFields =>
              let ajs := (lookupField contentFields "answer").getD (.str "")
              if jTruthy ajs then
                match ajs with
                | .str s =>
                  match json_loads s with
                  | some answerData =>
                    match answerData with
                    | .obj _ => .assign (answerData.getFieldD "answer" (.str ""))
                    | _ => .abortS
                  | none => .keep
                | _ => .abortS
              else .keep
            | _ => .abortS
          else .keep
        | _ => .abortS
      else .keep
    | _ => .abortS

/-- The assignment `answer = answer_data.get("answer", "")` followed by
`if answer: break` (s2.py lines 237-240). -/
def structuredStep (acc : JVal) (dataStr : String) : StepOut :=
  match structuredOutcome dataStr with
  | .assign v => if jTruthy v then .found v else .next v
  | .keep => .next acc
  | .abortS => .abort

/-- The scrape fallback followed by the structured fallback (s2.py lines
212-245): the broader regex result is cleaned and accepted only above 50
characters; otherwise the running answer is left as is. -/
def scrapeOrStructured (acc : JVal) (dataStr : String) : StepOut :=
  match searchP2 dataStr.data with
  | some rawContent =>
    let clean := String.mk (pyStrip (collapseWs (stripJsonStructural rawContent)))
    if clean.length > 50 then .found (.str clean)
    else structuredStep acc dataStr
  | none => structuredStep acc dataStr

/-- One iteration of the extraction loop (s2.py lines 171-250). -/
def extractStep (acc : JVal) (dataStr : String) : StepOut :=
  if hasFinalMarker dataStr then
    match searchP1 dataStr.data with
    | some rawCap =>
      let a := cleanAnswer rawCap
      if a ≠ "" ∧ a.length > 10 then .found (.str a)
      else scrapeOrStructured (.str a) dataStr
    | none => scrapeOrStructured acc dataStr
  else structuredStep acc dataStr

/-- After the loop: `if not answer: raise ValueError(...)` (s2.py lines
252-256). -/
def finalizeAnswer (acc : JVal) : Except ExtractErr JVal :=
  if jTruthy acc then .ok acc else .error .noAnswerFound

def extractLoop (acc : JVal) : List String → Except ExtractErr JVal
  | [] => finalizeAnswer acc
  | e :: rest =>
    if e = "[DONE]" then finalizeAnswer acc
    else
      match extractStep acc e with
      | .found v => finalizeAnswer v
      | .next acc2 => extractLoop acc2 rest
      | .abort => .error .internalError

/-- The whole extraction pass of `s2.call_perplexity` over the decoded
`data:` payloads. -/
def call_perplexity_extract (events : List String) : Except ExtractErr JVal :=
  extractLoop (.str "") events

/-- A decoded event counts as a FINAL event when the raw text carries the
literal marker or the structured parse reaches a FINAL step. -/
def structuredIsFinal (dataStr : String) : Bool :=
  match json_loads dataStr with
  | some chunk =>
    optEqStrB (chunk.getField "type") "chunk" &&
    optEqStrB ((chunk.getFieldD "data" (.obj [])).getField "step_type") "FINAL"
  | none => false

def isFinalEvent (dataStr : String) : Bool :=
  hasFinalMarker dataStr || structuredIsFinal dataStr

/-! ## The event decoder of `perplexity_fixed.Client.search` / `search_stream`

Each `\r\n\r\n`-delimited block is framed with `event: message\r\ndata: `;
a block whose JSON fails to decode degrades to an inline placeholder and
the loop continues; `event: end_of_stream` terminates decoding. -/

inductive DecodeStep where
  | event (j : JVal)
  | endOfStream
  | skip

/-- The inline placeholder `{"error": "Parse error", "message": str(e)}`
(perplexity_fixed lines 253-254); the message text is the Python
exception rendering, irrelevant to every property below. -/
def parseErrorEvent : JVal :=
  .obj [("error", .str "Parse error"), ("message", .str "json decode failed")]

/-- `content[len('event: message\r\ndata: '):]` — the slice is by length
(22), not by a check that `data: ` is actually present. -/
def dataPart (content : String) : String := String.mk (content.data.drop 22)

/-- Python `key in container`: dict key lookup, substring on strings,
membership on lists, `TypeError` otherwise. -/
def pyContains (container : JVal) (key : String) : Except Unit Bool :=
  match container with
  | .obj fs => .ok (lookupField fs key).isSome
  | .str s => .ok (containsSub key.data s.data)
  | .arr es => .ok (es.any fun e => e.eqStr key)
  | _ => .error ()

/-- The text-field fixup applied to a decoded message event
(perplexity_fixed lines 245-249): `if 'text' in content_json and
isinstance(content_json['text'], str)`, then a second decode of that
string replaced in place, a failed second decode keeping the original
string.  On a non-dict event the guard itself raises — `'text' in` a
number, boolean or `None` is a `TypeError`, as is `content_json['text']`
on a string or list whose containment test succeeded — and the enclosing
handler turns that into the Parse-error placeholder. -/
def fixupText (j : JVal) : Except Unit JVal :=
  match pyContains j "text" with
  | .error _ => .error ()
  | .ok false => .ok j
  | .ok true =>
    match j with
    | .obj fields =>
      match lookupField fields "text" with
      | some (.str s) =>
        match json_loads s with
        | some v => .ok (.obj (insertField fields "text" v))
        | none => .ok j
      | _ => .ok j
    | _ => .error ()

/-- `str.startswith` on the framing markers. -/
def startsWith (p s : String) : Bool := p.data.isPrefixOf s.data

def decodeBlock (content : String) : DecodeStep :=
  if startsWith "event: message\r\n" content then
    match json_loads (dataPart content) with
    | some j =>
      match fixupText j with
      | .ok j2 => .event j2
      | .error _ => .event parseErrorEvent
    | none => .event parseErrorEvent
  else if startsWith "event: end_of_stream\r\n" content then .endOfStream
  else .skip

/-- The decoded events of a whole stream, in order, stopping at the
end-of-stream sentinel (the body of the `aiter_lines` loop). -/
def decodeStream : List String → List JVal
  | [] => []
  | c :: rest =>
    match decodeBlock c with
    | .event j => j :: decodeStream rest
    | .endOfStream => []
    | .skip => decodeStream rest

/-- Non-streaming `search` keeps the last decoded chunk (perplexity_fixed
lines 259-262) or fails when nothing arrived. -/
def searchCollect (blocks : List String) : Except String JVal :=
  match (decodeStream blocks).getLast? with
  | some j => .ok j
  | none => .error "No response received from the API"

/-! ## Payload validation of `perplexity_fixed.Client._create_payload`

The mode table, the required-model check and the model table, in source
order.  `assert` failures and `raise PerplexityError` are distinct Python
exception kinds and the embedding keeps them distinct. -/

inductive PayloadErr where
  | assertionFailed (msg : String)
  | perplexityError (msg : String)
deriving DecidableEq

def PayloadErr.isAssertion : PayloadErr → Bool
  | .assertionFailed _ => true
  | .perplexityError _ => false

def valid_sources : List String := ["web", "scholar", "social", "edgar"]

/-- `model_preference_map` (perplexity_fixed lines 98-113).  The Python
`pro` dict literal repeats the key `sonar`; dict semantics keep its first
position with the last value (`'sonar'`), which is what the list below
records. -/
def model_preference_map (mode : String) : Option (List (Option String × String)) :=
  if mode = "auto" then some [(none, "turbo")]
  else if mode = "pro" then some
    [ (none, "pplx_pro"), (some "sonar", "sonar"), (some "gpt-4.5", "gpt45")
    , (some "gpt-4o", "gpt4o"), (some "claude 3.7 sonnet", "claude2")
    , (some "gemini 2.0 flash", "gemini2flash"), (some "grok-2", "grok")
    , (some "claude", "claude2"), (some "gemini2flash", "gemini2flash")
    , (some "grok4", "grok4"), (some "pplx_pro", "pplx_pro")
    , (some "gpt41", "gpt41"), (some "claude37sonnetthinking", "claude37sonnetthinking")
    , (some "o3", "o3"), (some "claude45sonnet", "claude45sonnet")
    , (some "claude45sonnetthinking", "claude45sonnetthinking")
    , (some "gpt5", "gpt5"), (some "gpt5thinking", "gpt5thinking") ]
  else if mode = "reasoning" then some
    [ (none, "pplx_reasoning"), (some "r1", "r1"), (some "o3-mini", "o3mini")
    , (some "claude 3.7 sonnet", "claude37sonnetthinking") ]
  else if mode = "deep research" then some [(none, "pplx_alpha"), (some "pplx_alpha", "pplx_alpha")]
  else if mode = "deep lab" then some [(none, "pplx_beta"), (some "pplx_beta", "pplx_beta")]
  else none

def lookupModel : List (Option String × String) → Option String → Option String
  | [], _ => none
  | (k, v) :: rest, m => if k = m then some v else lookupModel rest m

def requiresModel (mode : String) : Bool :=
  mode = "pro" || mode = "reasoning" || mode = "deep lab"

/-- The validation prefix of `_create_payload` (lines 89-118): source
check (`PerplexityError`), mode membership (`assert`), required-model
check (`PerplexityError`), model membership (`assert`); `none` means
validation passed and the body proceeds to uploads and payload assembly. -/
def create_payload_validate (mode : String) (model : Option String)
    (sources : List String) : Option PayloadErr :=
  match sources.find? (fun s => ! valid_sources.contains s) with
  | some s => some (.perplexityError ("Invalid source " ++ s))
  | none =>
    match model_preference_map mode with
    | none => some (.assertionFailed ("Invalid search mode: " ++ mode))
    | some tbl =>
      if requiresModel mode ∧ model = none then
        some (.perplexityError ("Model selection is required for " ++ mode ++ " mode."))
      else
        match lookupModel tbl model with
        | none => some (.assertionFailed ("Invalid model for mode " ++ mode))
        | some _ => none

/-- The effect sequence of `Client.search` with no files: validation
happens inside `_create_payload`, textually before the upload loop and
the stream POST, so a validation failure performs no network operation;
a validated payload performs exactly the one SSE POST. -/
def search_trace (mode : String) (model : Option String)
    (sources : List String) : Except PayloadErr Unit × List String :=
  match create_payload_validate mode model sources with
  | some e => (.error e, [])
  | none => (.ok (), ["POST rest/sse/perplexity_ask"])

/-- An invalid (mode, model) pair per the claim: unknown mode, missing
required model, or model absent from the mode's table. -/
def invalidPair (mode : String) (model : Option String) : Bool :=
  match model_preference_map mode with
  | none => true
  | some tbl => (requiresModel mode && model.isNone) || (lookupModel tbl model).isNone

/-! ## Profiles (`perplexity_profiles`) and query enhancement
(`PerplexityAPI.search` lines 218-227) -/

inductive SearchProfile where
  | research | code_analysis | troubleshooting | documentation | architecture
  | security | performance | tutorial | comparison | trending
  | best_practices | integration | debugging | optimization
deriving DecidableEq

/-- `PROFILE_INSTRUCTIONS`, verbatim. -/
def PROFILE_INSTRUCTIONS : SearchProfile → String
  | .research => "do a detailed research on this and provide me with most recent information about this be very detailed about it also make sure u are reffering to multiple sources like this"
  | .code_analysis => "analyze this code in detail, explain the logic, identify potential issues, suggest improvements, and provide best practices for this type of implementation"
  | .troubleshooting => "help me troubleshoot this issue step by step, identify common causes, provide solutions, and include preventative measures for similar problems"
  | .documentation => "provide comprehensive documentation for this, including setup instructions, usage examples, configuration options, and maintenance guidelines"
  | .architecture => "analyze the architectural implications, discuss design patterns, scalability considerations, and provide architectural recommendations"
  | .security => "evaluate security implications, identify vulnerabilities, suggest security measures, and provide security best practices for this context"
  | .performance => "analyze performance characteristics, identify bottlenecks, suggest optimizations, and provide performance benchmarks and monitoring strategies"
  | .tutorial => "create a step-by-step tutorial with clear explanations, code examples, common pitfalls, and practice exercises"
  | .comparison => "provide detailed comparisons between alternatives, including pros and cons, use cases, and recommendations for different scenarios"
  | .trending => "focus on the latest trends, recent developments, emerging technologies, and current best practices in this area"
  | .best_practices => "provide industry best practices, coding standards, guidelines, and recommendations for professional implementation"
  | .integration => "explain how to integrate this with existing systems, compatibility considerations, API requirements, and integration patterns"
  | .debugging => "provide systematic debugging approach, common debugging techniques, tools, and methods to identify and fix issues"
  | .optimization => "suggest specific optimizations, performance tuning strategies, resource usage improvements, and measurable enhancement techniques"

/-- `get_profile_instruction`: a dict `.get` with default `""`, but every
profile is a key, so the default is never produced. -/
def get_profile_instruction (p : SearchProfile) : String := PROFILE_INSTRUCTIONS p

def apply_profile_to_query (query : String) (profile : Option SearchProfile) : String :=
  match profile with
  | none => query
  | some p =>
    let instr := get_profile_instruction p
    if instr = "" then query
    else query ++ ". " ++ instr

/-- Python `str.lower()` for the ASCII range (profile names are ASCII). -/
def pyLower (s : String) : String :=
  String.mk (s.data.map fun c =>
    if 'A' ≤ c ∧ c ≤ 'Z' then Char.ofNat (c.toNat + 32) else c)

/-- `validate_profile`: `SearchProfile(profile_name.lower())`, `None` on
`ValueError`. -/
def validate_profile (name : String) : Option SearchProfile :=
  let n := pyLower name
  if n = "research" then some .research
  else if n = "code_analysis" then some .code_analysis
  else if n = "troubleshooting" then some .troubleshooting
  else if n = "documentation" then some .documentation
  else if n = "architecture" then some .architecture
  else if n = "security" then some .security
  else if n = "performance" then some .performance
  else if n = "tutorial" then some .tutorial
  else if n = "comparison" then some .comparison
  else if n = "trending" then some .trending
  else if n = "best_practices" then some .best_practices
  else if n = "integration" then some .integration
  else if n = "debugging" then some .debugging
  else if n = "optimization" then some .optimization
  else none

/-- The profile handling of `PerplexityAPI.search` for a string profile
argument: a falsy (empty) profile skips validation, an unknown name
validates to `None`, and `apply_profile_to_query` is then applied. -/
def api_enhanced_query (query : String) (profile : Option String) : String :=
  match profile with
  | none => apply_profile_to_query query none
  | some p =>
    if p = "" then apply_profile_to_query query none
    else apply_profile_to_query query (validate_profile p)

/-! ## Result shaping of `POST /v1/completions` (s2.py lines 456-480) -/

structure UsageBlock where
  prompt_tokens : Nat
  completion_tokens : Nat
  total_tokens : Nat
deriving DecidableEq

structure CompletionChoice where
  text : String
  index : Nat
  finish_reason : String
deriving DecidableEq

structure CompletionResponse where
  id : String
  object : String
  created : Nat
  model : String
  choices : List CompletionChoice
  usage : UsageBlock
deriving DecidableEq

/-- The OpenAI-compatible completion body.  The tokenizer (`count_tokens`
over the tiktoken GPT-4 encoding) is a third-party library, abstracted as
the function argument; `now` is the wall-clock second used for
`id`/`created`. -/
def completions_response (count_tokens : String → Nat) (now : Nat)
    (model query answer : String) : CompletionResponse :=
  let prompt_tokens := count_tokens query
  let completion_tokens := count_tokens answer
  let total_tokens := prompt_tokens + completion_tokens
  { id := "cmpl-" ++ toString now
  , object := "text_completion"
  , created := now
  , model := model
  , choices := [{ text := answer, index := 0, finish_reason := "stop" }]
  , usage := { prompt_tokens := prompt_tokens
             , completion_tokens := completion_tokens
             , total_tokens := total_tokens } }

/-! ## `PerplexityAPI._parse_response` and `_parse_stream_chunk`

The structured-result extractor: it scans `response['text']` for FINAL
steps and fills a `SearchResult`; when no FINAL step exists it returns a
result whose answer is the empty string, it does not raise.  Garbage
shapes that would raise `AttributeError`/`TypeError` in Python surface as
`Except.error`, which `PerplexityAPI.search` converts to a
`PerplexityAPIError`. -/

/-- A single apostrophe (Python repr quoting). -/
def quoteCh : String := String.mk [Char.ofNat 39]

mutual

/-- Python `repr` of a decoded JSON value, used through `str()` on the
garbage paths of `_parse_response` (dict/list rendering; number lexemes
are kept as parsed, a documented simplification of Python float
formatting). -/
def pyRepr : JVal → String
  | .null => "None"
  | .bool true => "True"
  | .bool false => "False"
  | .num lex => lex
  | .str s => quoteCh ++ s ++ quoteCh
  | .arr es => "[" ++ pyReprList es ++ "]"
  | .obj fs => "\x7b" ++ pyReprFields fs ++ "\x7d"

def pyReprList : List JVal → String
  | [] => ""
  | [v] => pyRepr v
  | v :: rest => pyRepr v ++ ", " ++ pyReprList rest

def pyReprFields : List (String × JVal) → String
  | [] => ""
  | [(k, v)] => quoteCh ++ k ++ quoteCh ++ ": " ++ pyRepr v
  | (k, v) :: rest => quoteCh ++ k ++ quoteCh ++ ": " ++ pyRepr v ++ ", " ++ pyReprFields rest

end

/-- Python `str()`: identity on strings, `repr` rendering otherwise. -/
def pyStr : JVal → String
  | .str s => s
  | v => pyRepr v

/-- `re.search(r'\{.*\}', s, re.DOTALL)`: greedy, so the match runs from
the first opening brace to the last closing brace, provided the latter
comes after the former. -/
def braceSegment (cs : List Char) : Option (List Char) :=
  let afterFirst := cs.dropWhile fun c => c ≠ '\x7b'
  let upToLast := (afterFirst.reverse.dropWhile fun c => c ≠ '\x7d').reverse
  if upToLast.length ≥ 2 then some upToLast else none

/-- The running `answer`/`sources`/`chunks` assignments of
`_parse_response`. -/
structure RespAccum where
  answer : JVal
  sources : JVal
  chunks : JVal

def respInit : RespAccum := { answer := .str "", sources := .arr [], chunks := .arr [] }

/-- The well-decoded arm (lines 390-402): a dict answer is unpacked, any
other decoded value is stringified. -/
def respMainPath (acc : RespAccum) (answerData : JVal) : RespAccum :=
  match answerData with
  | .obj fs =>
    { answer := (lookupField fs "answer").getD (.str "")
    , sources := (lookupField fs "web_results").getD ((lookupField fs "sources").getD (.arr []))
    , chunks := (lookupField fs "chunks").getD (.arr []) }
  | other => { acc with answer := .str (pyStr other) }

/-- One FINAL step's `answer` field processed (lines 388-418): a string
is JSON-decoded; on decode failure the brace-delimited segment is retried
and every residual failure falls back to the raw string. -/
def respFinalStep (acc : RespAccum) (rawAnswer : JVal) : RespAccum :=
  match rawAnswer with
  | .str s =>
    match json_loads s with
    | some answerData => respMainPath acc answerData
    | none =>
      match braceSegment s.data with
      | some seg =>
        match json_loads (String.mk seg) with
        | some (.obj fs) =>
          { acc with
            answer := (lookupField fs "answer").getD (.str s)
          , sources := (lookupField fs "web_results").getD ((lookupField fs "sources").getD (.arr [])) }
        | some _ => { acc with answer := .str s }
        | none => { acc with answer := .str s }
      | none => { acc with answer := .str s }
  | other => respMainPath acc other

/-- The `for step in response['text']` loop (lines 384-418); every FINAL
step is processed (there is no break, a later FINAL overwrites an earlier
one); `step.get` on a non-dict step and `'answer' in` a non-container
content raise. -/
def parse_response_steps (acc : RespAccum) : List JVal → Except Unit RespAccum
  | [] => .ok acc
  | step :: rest =>
    match step with
    | .obj sf =>
      if optEqStrB (lookupField sf "step_type") "FINAL" then
        match (lookupField sf "content").getD (.obj []) with
        | .obj cf =>
          match lookupField cf "answer" with
          | some rawAnswer => parse_response_steps (respFinalStep acc rawAnswer) rest
          | none => parse_response_steps acc rest
        | .str s =>
          if containsSub "answer".data s.data then .error ()
          else parse_response_steps acc rest
        | .arr es =>
          if es.any (fun e => e.eqStr "answer") then .error ()
          else parse_response_steps acc rest
        | _ => .error ()
      else parse_response_steps acc rest
    | _ => .error ()

/-- The structured search result (`SearchResult` dataclass); the
wall-clock `timestamp` is the caller-supplied search start time, and the
pass-through context fields are carried unchanged. -/
structure SearchResult where
  query : String
  answer : JVal
  sources : JVal
  mode : String
  model : Option String
  language : String
  timestamp : Nat
  backend_uuid : Option JVal
  context_uuid : Option JVal
  related_queries : JVal
  chunks : JVal
  raw_response : JVal
  prompt_source : String
  query_source : String
  should_ask_for_mcp_tool_confirmation : Bool
  search_focus : String
  timezone : String

/-- `_parse_response` (lines 369-442). -/
def parse_response (query : String) (response : JVal) (mode : String)
    (model : Option String) (language : String) (startTime : Nat)
    (prompt_source query_source : String)
    (should_ask_for_mcp_tool_confirmation : Bool)
    (search_focus timezone : String) : Except Unit SearchResult :=
  match response with
  | .obj rf =>
    let stepsRes : Except Unit RespAccum :=
      match lookupField rf "text" with
      | some (.arr steps) => parse_response_steps respInit steps
      | _ => .ok respInit
    match stepsRes with
    | .error e => .error e
    | .ok acc =>
      .ok { query := query
          , answer := acc.answer
          , sources := acc.sources
          , mode := mode
          , model := model
          , language := language
          , timestamp := startTime
          , backend_uuid := lookupField rf "backend_uuid"
          , context_uuid := lookupField rf "context_uuid"
          , related_queries := (lookupField rf "related_queries").getD (.arr [])
          , chunks := acc.chunks
          , raw_response := response
          , prompt_source := prompt_source
          , query_source := query_source
          , should_ask_for_mcp_tool_confirmation := should_ask_for_mcp_tool_confirmation
          , search_focus := search_focus
          , timezone := timezone }
  | _ => .error ()

/-- The per-event stream projection (`StreamChunk` dataclass); Python
does not enforce the declared `str` type on `step_type`, so the field holds
whatever the event carried. -/
structure StreamChunk where
  step_type : JVal
  content : JVal
  timestamp : Nat
  raw_data : JVal

def streamStepsGo (now : Nat) (raw : JVal) : List JVal → Except Unit (List StreamChunk)
  | [] => .ok []
  | step :: rest =>
    match step with
    | .obj sf =>
      (streamStepsGo now raw rest).map fun tail =>
        { step_type := (lookupField sf "step_type").getD (.str "unknown")
        , content := (lookupField sf "content").getD (.obj [])
        , timestamp := now
        , raw_data := raw } :: tail
    | _ => .error ()

/-- `_parse_stream_chunk` (lines 444-461): project each step of a
`text`-list chunk, tagging every projection with `time.time()` captured
once at decode time (`now`). -/
def parse_stream_chunk (now : Nat) (chunk : JVal) : Except Unit (List StreamChunk) :=
  match pyContains chunk "text" with
  | .error _ => .error ()
  | .ok false => .ok []
  | .ok true =>
    match chunk with
    | .obj cf =>
      match lookupField cf "text" with
      | some (.arr steps) => streamStepsGo now chunk steps
      | _ => .ok []
    | _ => .error ()

/-! ## Stage views of the extraction loop and concrete fixture events -/

/-- The regex stage of the marker branch: anchored capture, cleaned,
accepted only when non-empty and above the 10-character plausibility
threshold (s2.py lines 185-210). -/
def regexStageValue (dataStr : String) : Option String :=
  match searchP1 dataStr.data with
  | some cap =>
    let a := cleanAnswer cap
    if a ≠ "" ∧ a.length > 10 then some a else none
  | none => none

/-- The scrape stage: broader capture, stripped of JSON structure,
whitespace-collapsed, accepted only above 50 characters (s2.py lines
213-224). -/
def scrapeStageValue (dataStr : String) : Option String :=
  match searchP2 dataStr.data with
  | some raw =>
    let c := String.mk (pyStrip (collapseWs (stripJsonStructural raw)))
    if c.length > 50 then some c else none
  | none => none

/-- The nested answer value the structured fallback assigns when it
reaches the second decode. -/
def structuredNested (dataStr : String) : Option JVal :=
  match structuredOutcome dataStr with
  | .assign v => some v
  | _ => none

/-- How a returned answer can be attributed to one scanned event: an
accepted regex capture (above 10 characters), a sub-threshold regex
capture that survived as the running answer, a scrape result (above 50
characters by construction), or the structured nested answer. -/
def EventValue (e : String) (v : JVal) : Prop :=
  (∃ a, regexStageValue e = some a ∧ v = .str a) ∨
  (∃ cap, searchP1 e.data = some cap ∧ v = .str (cleanAnswer cap) ∧
    (cleanAnswer cap).length ≤ 10) ∨
  (∃ c, scrapeStageValue e = some c ∧ v = .str c) ∨
  structuredNested e = some v

/-- A malformed FINAL event whose regex capture is the two-character
string `hi`. -/
def c3Event : String := "\x7b\"step_type\": \"FINAL\", \"answer\": \"\x7b\\\"answer\\\": \\\"hi"

/-- A response whose only step is a non-FINAL one. -/
def c2Response : JVal := .obj [("text", .arr [.obj [("step_type", .str "SEARCH_RESULTS")]])]

/-- A malformed FINAL event whose regex capture is accepted (16
characters). -/
def regexOkEvent : String := "\x7b\"step_type\": \"FINAL\", \"answer\": \"\x7b\\\"answer\\\": \\\"aaaaaaaaaaaaaaaa"

/-- A FINAL-marked event the anchored regex cannot parse but whose
broader capture cleans to sixty characters. -/
def scrapeOkEvent : String := "\x7b\"step_type\": \"FINAL\", \"answer\": \"x\" bbbbbbbbbbbbbbbbbbbbbbbbbbbbbbbbbbbbbbbbbbbbbbbbbbbbbbbbbbbb"

/-- A one-step chunk for the stream projection. -/
def c6Chunk : JVal := .obj [("text", .arr [.obj [("step_type", .str "FINAL")]])]

/-- Whether the extraction pass raised (either error kind). -/
def isErrorE : Except ExtractErr JVal → Bool
  | .error _ => true
  | .ok _ => false

/-! # Theorems -/

/-! ## C10: the OpenAI-surface model parser -/

lemma splitFirstDash_no_dash (cs : List Char) (h : ∀ c ∈ cs, c ≠ '-') :
    splitFirstDash cs = none := by
  induction cs with
  | nil => rfl
  | cons c rest ih =>
    simp only [splitFirstDash]
    rw [if_neg (h c (List.mem_cons_self c rest)), ih fun x hx => h x (List.mem_cons_of_mem c hx)]

lemma splitFirstDash_append (pre post : List Char) (h : ∀ c ∈ pre, c ≠ '-') :
    splitFirstDash (pre ++ '-' :: post) = some (pre, post) := by
  induction pre with
  | nil => simp [splitFirstDash]
  | cons c rest ih =>
    simp only [List.cons_append, splitFirstDash, List.append_eq]
    rw [if_neg (h c (List.mem_cons_self c rest)), ih fun x hx => h x (List.mem_cons_of_mem c hx)]

/-- C10: `parse_model` maps a dashless name to `pro` mode with the whole
string as preference, hardwires `deep-*` to (`deep research`, `pplx_alpha`)
and `lab-*` to (`deep lab`, `pplx_beta`) for every suffix, and otherwise
splits at the first dash into (mode, preference). -/
theorem parse_model_spec (s pre suf : String) :
    (('-' ∉ s.data) → parse_model s = ("pro", some s)) ∧
    (parse_model ("deep-" ++ suf) = ("deep research", some "pplx_alpha")) ∧
    (parse_model ("lab-" ++ suf) = ("deep lab", some "pplx_beta")) ∧
    (('-' ∉ pre.data) → pre ≠ "deep" → pre ≠ "lab" →
      parse_model (pre ++ "-" ++ suf) = (pre, some suf)) := by
  refine ⟨?_, ?_, ?_, ?_⟩
  · intro h
    unfold parse_model
    rw [splitFirstDash_no_dash s.data fun c hc => by rintro rfl; exact h hc]
  · unfold parse_model
    have hd : ("deep-" ++ suf).data = "deep".data ++ '-' :: suf.data := by
      rw [String.data_append]; rfl
    rw [hd, splitFirstDash_append "deep".data suf.data (by decide)]
    rfl
  · unfold parse_model
    have hd : ("lab-" ++ suf).data = "lab".data ++ '-' :: suf.data := by
      rw [String.data_append]; rfl
    rw [hd, splitFirstDash_append "lab".data suf.data (by decide)]
    rfl
  · intro h hdeep hlab
    unfold parse_model
    have hsplit : (pre ++ "-" ++ suf).data = pre.data ++ '-' :: suf.data := by
      rw [String.data_append, String.data_append]
      simp
    rw [hsplit, splitFirstDash_append pre.data suf.data (fun c hc => by rintro rfl; exact h hc)]
    show (if String.mk pre.data = "deep" then (("deep research" : String), some ("pplx_alpha" : String))
          else if String.mk pre.data = "lab" then ("deep lab", some "pplx_beta")
          else (String.mk pre.data, some (String.mk suf.data))) = (pre, some suf)
    rw [if_neg hdeep, if_neg hlab]

/-- C10 witness: each branch at a concrete model name. -/
theorem parse_model_spec_witness :
    parse_model "sonar" = ("pro", some "sonar") ∧
    parse_model ("deep-" ++ "research") = ("deep research", some "pplx_alpha") ∧
    parse_model ("lab-" ++ "beta") = ("deep lab", some "pplx_beta") ∧
    parse_model ("pro" ++ "-" ++ "grok4") = ("pro", some "grok4") :=
  ⟨(parse_model_spec "sonar" "pro" "research").1 (by decide),
   (parse_model_spec "sonar" "pro" "research").2.1,
   (parse_model_spec "sonar" "pro" "beta").2.2.1,
   (parse_model_spec "sonar" "pro" "grok4").2.2.2 (by decide) (by decide) (by decide)⟩

/-! ## C9: exact token accounting in the completion body -/

/-- C9: for every tokenizer, clock reading and prompt/answer pair, the
usage block of the completion body counts the actual prompt and answer
strings through the tokenizer, and the total is their sum; the answer in
the single choice is the same string the completion tokens count. -/
theorem usage_tokens_exact (count_tokens : String → Nat) (now : Nat)
    (model query answer : String) :
    (completions_response count_tokens now model query answer).usage.prompt_tokens
        = count_tokens query ∧
    (completions_response count_tokens now model query answer).usage.completion_tokens
        = count_tokens answer ∧
    (completions_response count_tokens now model query answer).usage.total_tokens
        = count_tokens query + count_tokens answer ∧
    (completions_response count_tokens now model query answer).choices
        = [{ text := answer, index := 0, finish_reason := "stop" }] :=
  ⟨rfl, rfl, rfl, rfl⟩

/-! ## C8: profile augmentation -/

lemma apply_profile_some (q : String) (p : SearchProfile)
    (h : get_profile_instruction p ≠ "") :
    apply_profile_to_query q (some p) = q ++ ". " ++ get_profile_instruction p := by
  unfold apply_profile_to_query
  exact if_neg h

/-- C8 counterexample: an unknown profile tag is not a caller error — the
call proceeds with the unmodified query. -/
theorem c8_unknown_profile_counterexample :
    validate_profile "nonexistent" = none ∧
    api_enhanced_query "what is rust" (some "nonexistent") = "what is rust" :=
  ⟨rfl, rfl⟩

/-- C8 (amended): a known profile tag appends its instruction as
`"{query}. {instruction}"`; an unknown tag validates to `None` and the
query goes out unmodified — it is silently ignored, not an error. -/
theorem profile_augmentation (q tag : String) :
    (∀ p, validate_profile tag = some p →
      api_enhanced_query q (some tag) = q ++ ". " ++ get_profile_instruction p) ∧
    (validate_profile tag = none → tag ≠ "" →
      api_enhanced_query q (some tag) = q) := by
  constructor
  · intro p hp
    have htag : tag ≠ "" := by
      intro he
      rw [he] at hp
      have h0 : validate_profile "" = none := rfl
      rw [h0] at hp
      exact Option.noConfusion hp
    simp only [api_enhanced_query]
    rw [if_neg htag, hp]
    exact apply_profile_some q p (by cases p <;> decide)
  · intro hn htag
    simp only [api_enhanced_query]
    rw [if_neg htag, hn]
    rfl

/-- C8 witness: a known tag (`research`) and an unknown tag (`bogus`). -/
theorem profile_augmentation_witness :
    api_enhanced_query "q0" (some "research")
      = "q0" ++ ". " ++ get_profile_instruction .research ∧
    api_enhanced_query "q0" (some "bogus") = "q0" :=
  ⟨(profile_augmentation "q0" "research").1 .research rfl,
   (profile_augmentation "q0" "bogus").2 rfl (by decide)⟩

/-! ## C4: payload validation -/

/-- C4 counterexample: the three invalid categories are rejected, but not
with one error kind — an unknown mode fails the `assert` (AssertionError)
while a missing required model raises `PerplexityError`. -/
theorem c4_error_kind_counterexample :
    create_payload_validate "foo" none ["web"]
      = some (.assertionFailed "Invalid search mode: foo") ∧
    create_payload_validate "pro" none ["web"]
      = some (.perplexityError "Model selection is required for pro mode.") ∧
    PayloadErr.isAssertion (.assertionFailed "Invalid search mode: foo") = true ∧
    PayloadErr.isAssertion (.perplexityError "Model selection is required for pro mode.")
      = false :=
  ⟨rfl, rfl, rfl, rfl⟩

/-- C4 (amended): every invalid (mode, model) pair is rejected during
payload construction, before any network operation (the search trace is
empty); the error kind is `PerplexityError` exactly for a missing
required model and `AssertionError` for the two membership failures. -/
theorem invalid_pair_rejected_before_network (mode : String) (model : Option String)
    (h : invalidPair mode model = true) :
    ∃ e : PayloadErr,
      create_payload_validate mode model ["web"] = some e ∧
      search_trace mode model ["web"] = (.error e, []) ∧
      (e.isAssertion = false ↔
        (model_preference_map mode).isSome = true ∧ requiresModel mode = true ∧
          model = none) := by
  unfold invalidPair at h
  have hsrc : List.find? (fun s => ! valid_sources.contains s) ["web"] = none := rfl
  cases hm : model_preference_map mode with
  | none =>
    refine ⟨.assertionFailed ("Invalid search mode: " ++ mode), ?_, ?_, ?_⟩
    · unfold create_payload_validate
      rw [hsrc, hm]
    · unfold search_trace create_payload_validate
      rw [hsrc, hm]
    · simp [PayloadErr.isAssertion, hm]
  | some tbl =>
    rw [hm] at h
    by_cases hreq : requiresModel mode = true ∧ model = none
    · refine ⟨.perplexityError ("Model selection is required for " ++ mode ++ " mode."), ?_, ?_, ?_⟩
      · simp only [create_payload_validate, hsrc, hm]
        rw [if_pos hreq]
      · simp only [search_trace, create_payload_validate, hsrc, hm]
        rw [if_pos hreq]
      · simp [PayloadErr.isAssertion, hm, hreq.1, hreq.2]
    · have hlk : lookupModel tbl model = none := by
        rcases Bool.or_eq_true .. |>.mp h with h1 | h2
        · exact absurd ⟨((Bool.and_eq_true ..).mp h1).1,
            Option.isNone_iff_eq_none.mp ((Bool.and_eq_true ..).mp h1).2⟩ hreq
        · exact Option.isNone_iff_eq_none.mp h2
      refine ⟨.assertionFailed ("Invalid model for mode " ++ mode), ?_, ?_, ?_⟩
      · simp only [create_payload_validate, hsrc, hm]
        rw [if_neg hreq, hlk]
      · simp only [search_trace, create_payload_validate, hsrc, hm]
        rw [if_neg hreq, hlk]
      · simp only [PayloadErr.isAssertion, hm, Option.isSome_some, true_and]
        constructor
        · intro hfalse; exact Bool.noConfusion hfalse
        · intro hr; exact absurd hr hreq

/-- C4 witness: an unknown reasoning-mode model is rejected with an
assertion failure and an empty network trace. -/
theorem invalid_pair_rejected_before_network_witness :
    invalidPair "reasoning" (some "bogusmodel") = true ∧
    ∃ e : PayloadErr,
      create_payload_validate "reasoning" (some "bogusmodel") ["web"] = some e ∧
      search_trace "reasoning" (some "bogusmodel") ["web"] = (.error e, []) ∧
      (e.isAssertion = false ↔
        (model_preference_map "reasoning").isSome = true ∧
          requiresModel "reasoning" = true ∧ (some "bogusmodel" : Option String) = none) :=
  ⟨by decide, invalid_pair_rejected_before_network "reasoning" (some "bogusmodel") (by decide)⟩

/-! ## C7: second decode of the `text` field -/

/-- C7: a decoded event whose top-level `text` field is a string gets a
second JSON decode of that string with the field replaced in place; a
failed second decode keeps the original string value and no error is
raised — the fixup succeeds (never the TypeError path a non-dict event
takes) and the block decoder emits the fixed-up event, not the
placeholder. -/
theorem text_field_second_decode (fields : List (String × JVal)) (s : String)
    (hs : lookupField fields "text" = some (.str s)) :
    (∀ v, json_loads s = some v →
      fixupText (.obj fields) = .ok (.obj (insertField fields "text" v))) ∧
    (json_loads s = none → fixupText (.obj fields) = .ok (.obj fields)) ∧
    (∀ content j2, startsWith "event: message\r\n" content = true →
      json_loads (dataPart content) = some (.obj fields) →
      fixupText (.obj fields) = .ok j2 →
      decodeBlock content = .event j2) := by
  refine ⟨?_, ?_, ?_⟩
  · intro v hv
    simp only [fixupText, pyContains, hs, Option.isSome_some, hv]
  · intro hv
    simp only [fixupText, pyContains, hs, Option.isSome_some, hv]
  · intro content j2 hpre hj hfix
    simp [decodeBlock, hpre, hj, hfix]

/-- C7 witness: a decodable and an undecodable `text` payload, and the
block decoder emitting the fixed-up event. -/
theorem text_field_second_decode_witness :
    fixupText (.obj [("text", .str "[1]")]) = .ok (.obj [("text", .arr [.num "1"])]) ∧
    fixupText (.obj [("text", .str "\x7bbad")]) = .ok (.obj [("text", .str "\x7bbad")]) ∧
    decodeBlock "event: message\r\ndata: \x7b\"text\": \"[1]\"\x7d"
      = .event (.obj [("text", .arr [.num "1"])]) :=
  ⟨(text_field_second_decode [("text", .str "[1]")] "[1]" rfl).1 (.arr [.num "1"]) rfl,
   (text_field_second_decode [("text", .str "\x7bbad")] "\x7bbad" rfl).2.1 rfl,
   (text_field_second_decode [("text", .str "[1]")] "[1]" rfl).2.2 _ _ rfl rfl rfl⟩

/-! ## C5: malformed events degrade to placeholders -/

/-- C5: a message event whose JSON decode fails becomes the inline
`{"error": ..., "message": ...}` placeholder; decoding continues over the
remaining blocks unchanged, so a well-formed FINAL event after a
malformed one still decodes. -/
theorem malformed_event_degrades_to_placeholder (bad : String) (rest : List String)
    (hpre : startsWith "event: message\r\n" bad = true)
    (hbad : json_loads (dataPart bad) = none) :
    decodeBlock bad = .event parseErrorEvent ∧
    decodeStream (bad :: rest) = parseErrorEvent :: decodeStream rest ∧
    (parseErrorEvent.getField "error").isSome = true ∧
    (parseErrorEvent.getField "message").isSome = true ∧
    (∀ good j, decodeBlock good = .event j →
      decodeStream [bad, good] = [parseErrorEvent, j]) := by
  have hdb : decodeBlock bad = .event parseErrorEvent := by
    simp [decodeBlock, hpre, hbad]
  refine ⟨hdb, ?_, rfl, rfl, ?_⟩
  · simp [decodeStream, hdb]
  · intro good j hg
    simp [decodeStream, hdb, hg]

/-- C5 witness: a broken event followed by a well-formed FINAL event. -/
theorem malformed_event_degrades_to_placeholder_witness :
    decodeStream ["event: message\r\ndata: \x7bbroken",
        "event: message\r\ndata: \x7b\"step_type\": \"FINAL\"\x7d"]
      = [parseErrorEvent, .obj [("step_type", .str "FINAL")]] :=
  (malformed_event_degrades_to_placeholder "event: message\r\ndata: \x7bbroken"
      ["event: message\r\ndata: \x7b\"step_type\": \"FINAL\"\x7d"] rfl rfl).2.2.2.2
    "event: message\r\ndata: \x7b\"step_type\": \"FINAL\"\x7d"
    (.obj [("step_type", .str "FINAL")]) rfl

/-! ## C6: decode determinism and the stream-chunk timestamp -/

/-- C6 counterexample: the stream-chunk projection tags the decode time,
so projecting the same decoded record at two clock readings yields
structurally different results (they differ in `timestamp`). -/
theorem c6_timestamp_counterexample :
    parse_stream_chunk 0 c6Chunk ≠ parse_stream_chunk 1 c6Chunk := by
  intro h
  have h0 : parse_stream_chunk 0 c6Chunk
      = .ok [{ step_type := .str "FINAL", content := .obj [],
               timestamp := 0, raw_data := c6Chunk }] := rfl
  have h1 : parse_stream_chunk 1 c6Chunk
      = .ok [{ step_type := .str "FINAL", content := .obj [],
               timestamp := 1, raw_data := c6Chunk }] := rfl
  rw [h0, h1] at h
  have h2 := congrArg (fun r : Except Unit (List StreamChunk) =>
    match r with
    | .ok (sc :: _) => sc.timestamp
    | _ => 0) h
  simp at h2

lemma streamStepsGo_time (now : Nat) (raw : JVal) (steps : List JVal) :
    streamStepsGo now raw steps
      = (streamStepsGo 0 raw steps).map
          (List.map fun sc => { sc with timestamp := now }) := by
  induction steps with
  | nil => rfl
  | cons step rest ih =>
    cases step with
    | obj sf =>
      simp only [streamStepsGo]
      rw [ih]
      cases streamStepsGo 0 raw rest with
      | error e => rfl
      | ok tail => rfl
    | null => rfl
    | bool b => rfl
    | num l => rfl
    | str s => rfl
    | arr es => rfl

/-- C6 (amended): event decoding is a pure function of the raw record and
the decode time; projecting the same record at any decode time gives the
projection at time zero with only the timestamp field shifted, so two
decodes of the same record agree except in the timestamp tag. -/
theorem parse_stream_chunk_determinism (now : Nat) (chunk : JVal) :
    parse_stream_chunk now chunk
      = (parse_stream_chunk 0 chunk).map
          (List.map fun sc => { sc with timestamp := now }) := by
  unfold parse_stream_chunk
  cases hpc : pyContains chunk "text" with
  | error e => rfl
  | ok b =>
    cases b with
    | false => rfl
    | true =>
      cases chunk with
      | obj cf =>
        dsimp only
        cases hlf : lookupField cf "text" with
        | none => rfl
        | some tv =>
          cases tv with
          | arr steps => exact streamStepsGo_time now (.obj cf) steps
          | null => rfl
          | bool b2 => rfl
          | num l => rfl
          | str s => rfl
          | obj fs2 => rfl
      | null => rfl
      | bool b2 => rfl
      | num l => rfl
      | str s => rfl
      | arr es => rfl

/-! ## Lemmas on the extraction loop -/

lemma finalizeAnswer_ok {acc v : JVal} (h : finalizeAnswer acc = .ok v) :
    v = acc ∧ jTruthy acc = true := by
  unfold finalizeAnswer at h
  split at h
  · exact ⟨(Except.ok.inj h).symm, by assumption⟩
  · exact Except.noConfusion h

lemma structuredStep_found {acc : JVal} {e : String} {v : JVal}
    (h : structuredStep acc e = .found v) :
    structuredNested e = some v ∧ jTruthy v = true := by
  unfold structuredStep at h
  unfold structuredNested
  cases ho : structuredOutcome e with
  | assign w =>
    simp only [ho] at h
    split at h
    · next htr =>
      injection h with hw
      subst hw
      exact ⟨rfl, htr⟩
    · exact StepOut.noConfusion h
  | keep => simp only [ho] at h; exact StepOut.noConfusion h
  | abortS => simp only [ho] at h; exact StepOut.noConfusion h

lemma structuredStep_next {acc : JVal} {e : String} {a2 : JVal}
    (h : structuredStep acc e = .next a2) :
    a2 = acc ∨ structuredNested e = some a2 := by
  unfold structuredStep at h
  unfold structuredNested
  cases ho : structuredOutcome e with
  | assign w =>
    simp only [ho] at h
    split at h
    · exact StepOut.noConfusion h
    · injection h with hw
      subst hw
      exact Or.inr rfl
  | keep =>
    simp only [ho] at h
    injection h with hw
    exact Or.inl hw.symm
  | abortS => simp only [ho] at h; exact StepOut.noConfusion h

lemma structuredOutcome_assign_final {e : String} {v : JVal}
    (h : structuredOutcome e = .assign v) : structuredIsFinal e = true := by
  unfold structuredOutcome at h
  unfold structuredIsFinal
  cases hj : json_loads e with
  | none => rw [hj] at h; exact StructOut.noConfusion h
  | some chunk =>
    rw [hj] at h
    cases chunk with
    | obj cf =>
      by_cases h1 : optEqStrB ((JVal.obj cf).getField "type") "chunk" = true
      · simp only [h1, if_true] at h ⊢
        cases hd : (JVal.obj cf).getFieldD "data" (.obj []) with
        | obj dataFields =>
          simp only [hd] at h ⊢
          by_cases h2 : optEqStrB (lookupField dataFields "step_type") "FINAL" = true
          · exact h2
          · simp only [h2, if_false] at h
            exact StructOut.noConfusion h
        | null => simp only [hd] at h; exact StructOut.noConfusion h
        | bool b => simp only [hd] at h; exact StructOut.noConfusion h
        | num l => simp only [hd] at h; exact StructOut.noConfusion h
        | str s => simp only [hd] at h; exact StructOut.noConfusion h
        | arr es => simp only [hd] at h; exact StructOut.noConfusion h
      · simp only [h1, if_false] at h
        exact StructOut.noConfusion h
    | null => exact StructOut.noConfusion h
    | bool b => exact StructOut.noConfusion h
    | num l => exact StructOut.noConfusion h
    | str s => exact StructOut.noConfusion h
    | arr es => exact StructOut.noConfusion h

lemma structuredStep_nonfinal {acc : JVal} {e : String}
    (h : structuredIsFinal e = false) :
    structuredStep acc e = .next acc ∨ structuredStep acc e = .abort := by
  unfold structuredStep
  cases ho : structuredOutcome e with
  | assign v =>
    rw [structuredOutcome_assign_final ho] at h
    exact Bool.noConfusion h
  | keep => exact Or.inl rfl
  | abortS => exact Or.inr rfl

lemma extractStep_marker {acc : JVal} {e : String} (hm : hasFinalMarker e = true) :
    extractStep acc e =
      match searchP1 e.data with
      | some rawCap =>
        if cleanAnswer rawCap ≠ "" ∧ (cleanAnswer rawCap).length > 10
        then .found (.str (cleanAnswer rawCap))
        else scrapeOrStructured (.str (cleanAnswer rawCap)) e
      | none => scrapeOrStructured acc e := by
  unfold extractStep
  rw [hm]
  rfl

lemma extractStep_nomarker {acc : JVal} {e : String} (hm : hasFinalMarker e = false) :
    extractStep acc e = structuredStep acc e := by
  unfold extractStep
  rw [hm]
  rfl

lemma extractStep_nonfinal {acc : JVal} {e : String}
    (h : isFinalEvent e = false) :
    extractStep acc e = .next acc ∨ extractStep acc e = .abort := by
  unfold isFinalEvent at h
  obtain ⟨hm, hs⟩ := Bool.or_eq_false_iff.mp h
  rw [extractStep_nomarker hm]
  exact structuredStep_nonfinal hs

lemma extractLoop_ok_truthy : ∀ (evs : List String) (acc v : JVal),
    extractLoop acc evs = .ok v → jTruthy v = true := by
  intro evs
  induction evs with
  | nil =>
    intro acc v h
    have hfin := finalizeAnswer_ok h
    rw [hfin.1]
    exact hfin.2
  | cons e rest ih =>
    intro acc v h
    unfold extractLoop at h
    split at h
    · have hfin := finalizeAnswer_ok h
      rw [hfin.1]
      exact hfin.2
    · cases hst : extractStep acc e with
      | found w =>
        rw [hst] at h
        have hfin := finalizeAnswer_ok h
        rw [hfin.1]
        exact hfin.2
      | next a2 =>
        rw [hst] at h
        exact ih a2 v h
      | abort =>
        rw [hst] at h
        exact Except.noConfusion h

lemma extractLoop_nonfinal : ∀ (evs : List String) (acc : JVal),
    (∀ e ∈ evs, isFinalEvent e = false) → jTruthy acc = false →
    isErrorE (extractLoop acc evs) = true := by
  intro evs
  induction evs with
  | nil =>
    intro acc _ hacc
    simp [extractLoop, finalizeAnswer, hacc, isErrorE]
  | cons e rest ih =>
    intro acc hall hacc
    unfold extractLoop
    split
    · simp [finalizeAnswer, hacc, isErrorE]
    · rcases extractStep_nonfinal (hall e (List.mem_cons_self e rest)) with hst | hst
      · rw [hst]
        exact ih acc (fun x hx => hall x (List.mem_cons_of_mem e hx)) hacc
      · rw [hst]
        rfl

lemma regexStage_some {e a : String} (h : regexStageValue e = some a) :
    a ≠ "" ∧ a.length > 10 ∧ ∃ cap, searchP1 e.data = some cap ∧ a = cleanAnswer cap := by
  unfold regexStageValue at h
  cases hp : searchP1 e.data with
  | none => rw [hp] at h; exact Option.noConfusion h
  | some cap =>
    simp only [hp] at h
    by_cases hc : cleanAnswer cap ≠ "" ∧ (cleanAnswer cap).length > 10
    · rw [if_pos hc] at h
      have ha := Option.some.inj h
      exact ⟨ha ▸ hc.1, ha ▸ hc.2, cap, rfl, ha.symm⟩
    · rw [if_neg hc] at h
      exact Option.noConfusion h

lemma scrapeStage_some {e c : String} (h : scrapeStageValue e = some c) :
    c.length > 50 ∧ ∃ raw, searchP2 e.data = some raw ∧
      c = String.mk (pyStrip (collapseWs (stripJsonStructural raw))) := by
  unfold scrapeStageValue at h
  cases hp : searchP2 e.data with
  | none => rw [hp] at h; exact Option.noConfusion h
  | some raw =>
    simp only [hp] at h
    by_cases hc :
        (String.mk (pyStrip (collapseWs (stripJsonStructural raw)))).length > 50
    · rw [if_pos hc] at h
      have hc2 := Option.some.inj h
      exact ⟨hc2 ▸ hc, raw, rfl, hc2.symm⟩
    · rw [if_neg hc] at h
      exact Option.noConfusion h

lemma scrapeOrStructured_found_eventValue {acc : JVal} {e : String} {v : JVal}
    (h : scrapeOrStructured acc e = .found v) : EventValue e v := by
  unfold scrapeOrStructured at h
  cases hp : searchP2 e.data with
  | none =>
    simp only [hp] at h
    exact Or.inr (Or.inr (Or.inr (structuredStep_found h).1))
  | some raw =>
    simp only [hp] at h
    by_cases hc :
        (String.mk (pyStrip (collapseWs (stripJsonStructural raw)))).length > 50
    · rw [if_pos hc] at h
      have hv := StepOut.found.inj h
      refine Or.inr (Or.inr (Or.inl ⟨String.mk (pyStrip (collapseWs (stripJsonStructural raw))), ?_, hv.symm⟩))
      unfold scrapeStageValue
      simp only [hp]
      rw [if_pos hc]
    · rw [if_neg hc] at h
      exact Or.inr (Or.inr (Or.inr (structuredStep_found h).1))

lemma extractStep_found_eventValue {acc : JVal} {e : String} {v : JVal}
    (h : extractStep acc e = .found v) : EventValue e v := by
  by_cases hm : hasFinalMarker e = true
  · rw [extractStep_marker hm] at h
    cases hp : searchP1 e.data with
    | none =>
      simp only [hp] at h
      exact scrapeOrStructured_found_eventValue h
    | some cap =>
      simp only [hp] at h
      by_cases hc : cleanAnswer cap ≠ "" ∧ (cleanAnswer cap).length > 10
      · rw [if_pos hc] at h
        have hv := StepOut.found.inj h
        refine Or.inl ⟨cleanAnswer cap, ?_, hv.symm⟩
        unfold regexStageValue
        simp only [hp]
        rw [if_pos hc]
      · rw [if_neg hc] at h
        exact scrapeOrStructured_found_eventValue h
  · have hm2 : hasFinalMarker e = false := by
      revert hm; cases hasFinalMarker e <;> simp
    rw [extractStep_nomarker hm2] at h
    exact Or.inr (Or.inr (Or.inr (structuredStep_found h).1))

lemma scrapeOrStructured_next_eventValue {acc : JVal} {e : String} {a2 : JVal}
    (h : scrapeOrStructured acc e = .next a2) :
    a2 = acc ∨ EventValue e a2 := by
  unfold scrapeOrStructured at h
  cases hp : searchP2 e.data with
  | none =>
    simp only [hp] at h
    rcases structuredStep_next h with h2 | h2
    · exact Or.inl h2
    · exact Or.inr (Or.inr (Or.inr (Or.inr h2)))
  | some raw =>
    simp only [hp] at h
    by_cases hc :
        (String.mk (pyStrip (collapseWs (stripJsonStructural raw)))).length > 50
    · rw [if_pos hc] at h
      exact StepOut.noConfusion h
    · rw [if_neg hc] at h
      rcases structuredStep_next h with h2 | h2
      · exact Or.inl h2
      · exact Or.inr (Or.inr (Or.inr (Or.inr h2)))

lemma extractStep_next_eventValue {acc : JVal} {e : String} {a2 : JVal}
    (h : extractStep acc e = .next a2) :
    a2 = acc ∨ EventValue e a2 := by
  by_cases hm : hasFinalMarker e = true
  · rw [extractStep_marker hm] at h
    cases hp : searchP1 e.data with
    | none =>
      simp only [hp] at h
      exact scrapeOrStructured_next_eventValue h
    | some cap =>
      simp only [hp] at h
      by_cases hc : cleanAnswer cap ≠ "" ∧ (cleanAnswer cap).length > 10
      · rw [if_pos hc] at h
        exact StepOut.noConfusion h
      · rw [if_neg hc] at h
        have hlen : (cleanAnswer cap).length ≤ 10 := by
          by_cases h0 : cleanAnswer cap = ""
          · rw [h0]; decide
          · by_cases h1 : (cleanAnswer cap).length > 10
            · exact absurd ⟨h0, h1⟩ hc
            · omega
        rcases scrapeOrStructured_next_eventValue h with h2 | h2
        · exact Or.inr (Or.inr (Or.inl ⟨cap, hp, h2, hlen⟩))
        · exact Or.inr h2
  · have hm2 : hasFinalMarker e = false := by
      revert hm; cases hasFinalMarker e <;> simp
    rw [extractStep_nomarker hm2] at h
    rcases structuredStep_next h with h2 | h2
    · exact Or.inl h2
    · exact Or.inr (Or.inr (Or.inr (Or.inr h2)))

lemma extractLoop_ok_attribution : ∀ (evs : List String) (acc v : JVal),
    extractLoop acc evs = .ok v → v = acc ∨ ∃ e ∈ evs, EventValue e v := by
  intro evs
  induction evs with
  | nil =>
    intro acc v h
    exact Or.inl (finalizeAnswer_ok h).1
  | cons e rest ih =>
    intro acc v h
    unfold extractLoop at h
    split at h
    · exact Or.inl (finalizeAnswer_ok h).1
    · cases hst : extractStep acc e with
      | found w =>
        rw [hst] at h
        have hv := (finalizeAnswer_ok h).1
        exact Or.inr ⟨e, List.mem_cons_self e rest, hv ▸ extractStep_found_eventValue hst⟩
      | next a2 =>
        rw [hst] at h
        rcases ih a2 v h with h2 | ⟨e2, he2, hev⟩
        · rcases extractStep_next_eventValue hst with h3 | h3
          · exact Or.inl (h2.trans h3)
          · exact Or.inr ⟨e, List.mem_cons_self e rest, h2 ▸ h3⟩
        · exact Or.inr ⟨e2, List.mem_cons_of_mem e he2, hev⟩
      | abort =>
        rw [hst] at h
        exact Except.noConfusion h

/-! ## C1: order of the fallback strategies -/

/-- C2 counterexample: the structured-result extractor `_parse_response`
does not raise on a stream with no FINAL event — it returns a successful
`SearchResult` whose answer is the empty string. -/
theorem c2_parse_response_empty_counterexample :
    (parse_response "q" c2Response "pro" (some "sonar") "en-US" 0 "user" "home" true
        "internet" "Europe/Berlin").map (fun r => r.answer) = .ok (.str "") ∧
    optEqStrB ((JVal.obj [("step_type", .str "SEARCH_RESULTS")]).getField "step_type")
        "FINAL" = false :=
  ⟨rfl, rfl⟩

/-- C2 (amended): the OpenAI-proxy extractor satisfies the claim — a
successful extraction is always truthy (never the empty string) and a
stream with no FINAL event always raises; the structured-API extractor
`_parse_response` instead completes successfully on a FINAL-free step
list, leaving the accumulator (and hence the answer) untouched at the
empty string. -/
theorem no_answer_discipline :
    (∀ evs v, call_perplexity_extract evs = .ok v → jTruthy v = true) ∧
    (∀ evs, (∀ e ∈ evs, isFinalEvent e = false) →
      isErrorE (call_perplexity_extract evs) = true) ∧
    (∀ (steps : List JVal) (acc : RespAccum),
      (∀ st ∈ steps, (st.isObj && ! optEqStrB (st.getField "step_type") "FINAL") = true) →
      parse_response_steps acc steps = .ok acc) := by
  refine ⟨?_, ?_, ?_⟩
  · intro evs v h
    exact extractLoop_ok_truthy evs (.str "") v h
  · intro evs hall
    exact extractLoop_nonfinal evs (.str "") hall (by decide)
  · intro steps
    induction steps with
    | nil => intro acc _; rfl
    | cons st rest ih =>
      intro acc hall
      obtain ⟨hobj, hnf⟩ := Bool.and_eq_true .. |>.mp (hall st (List.mem_cons_self st rest))
      cases st with
      | obj sf =>
        have hb : optEqStrB (lookupField sf "step_type") "FINAL" = false :=
          Bool.not_eq_true' .. |>.mp hnf
        simp only [parse_response_steps, hb, Bool.false_eq_true, if_false]
        exact ih acc fun x hx => hall x (List.mem_cons_of_mem _ hx)
      | null => exact Bool.noConfusion hobj
      | bool b => exact Bool.noConfusion hobj
      | num l => exact Bool.noConfusion hobj
      | str s => exact Bool.noConfusion hobj
      | arr es => exact Bool.noConfusion hobj

/-- C2 witness: a successful extraction is truthy; a FINAL-free stream
raises; a FINAL-free step list leaves the accumulator unchanged. -/
theorem no_answer_discipline_witness :
    jTruthy (.str "aaaaaaaaaaaaaaaa") = true ∧
    isErrorE (call_perplexity_extract ["not a final event"]) = true ∧
    parse_response_steps respInit [.obj [("step_type", .str "SEARCH_WEB")]]
      = .ok respInit :=
  ⟨no_answer_discipline.1 [regexOkEvent] (.str "aaaaaaaaaaaaaaaa") rfl,
   no_answer_discipline.2.1 ["not a final event"] (by decide),
   no_answer_discipline.2.2 [.obj [("step_type", .str "SEARCH_WEB")]] respInit
     (by decide)⟩

/-! ## C3: plausibility thresholds -/

/-- C3 counterexample: a two-character regex-recovered answer is returned
by the extractor — the 10-character threshold only gates the early break,
and the sub-threshold capture survives as the running answer. -/
theorem c3_subthreshold_counterexample :
    call_perplexity_extract [c3Event] = .ok (.str "hi") ∧
    (searchP1 c3Event.data).map cleanAnswer = some "hi" ∧
    ("hi" : String).length ≤ 10 ∧ ("hi" : String) ≠ "" :=
  ⟨rfl, rfl, by decide, by decide⟩

/-- C3 (amended): every returned answer is attributable to a scanned
event as an accepted regex capture (necessarily above 10 characters), a
sub-threshold regex capture that survived as the running answer (at most
10 characters — so such a string can be returned), a scrape result
(necessarily above 50 characters), or a structured nested answer. -/
theorem extraction_threshold_discipline :
    (∀ evs v, call_perplexity_extract evs = .ok v →
      jTruthy v = true ∧ ∃ e ∈ evs, EventValue e v) ∧
    (∀ e a, regexStageValue e = some a → a.length > 10) ∧
    (∀ e c, scrapeStageValue e = some c → c.length > 50) := by
  refine ⟨?_, ?_, ?_⟩
  · intro evs v h
    have ht := extractLoop_ok_truthy evs (.str "") v h
    refine ⟨ht, ?_⟩
    rcases extractLoop_ok_attribution evs (.str "") v h with h2 | h2
    · rw [h2] at ht
      exact absurd ht (by decide)
    · exact h2
  · intro e a h
    exact (regexStage_some h).2.1
  · intro e c h
    exact (scrapeStage_some h).1

/-- C3 witness: the sub-threshold return at `hi`, an accepted regex
capture above 10 characters, and a scrape result above 50 characters. -/
theorem extraction_threshold_discipline_witness :
    (jTruthy (.str "hi") = true ∧ ∃ e ∈ [c3Event], EventValue e (.str "hi")) ∧
    ("aaaaaaaaaaaaaaaa" : String).length > 10 ∧
    ("bbbbbbbbbbbbbbbbbbbbbbbbbbbbbbbbbbbbbbbbbbbbbbbbbbbbbbbbbbbb" : String).length > 50 :=
  ⟨extraction_threshold_discipline.1 [c3Event] (.str "hi") rfl,
   extraction_threshold_discipline.2.1 regexOkEvent "aaaaaaaaaaaaaaaa" rfl,
   extraction_threshold_discipline.2.2 scrapeOkEvent
     "bbbbbbbbbbbbbbbbbbbbbbbbbbbbbbbbbbbbbbbbbbbbbbbbbbbbbbbbbbbb" rfl⟩
